import Mathlib

set_option linter.unusedVariables false

/-!
Verification of `superset_engine_d1/d1_engine_spec.py` (the `D1EngineSpec`
class, a Superset engine spec for Cloudflare D1) against its specification.

The Python code is shallowly embedded: the injected SQLAlchemy inspector is
modelled by passing its result (or its raised exception's text) as an
`Except String` argument; Python dicts of heterogeneous values are modelled
as association lists over a small value type; `datetime` is a record of its
calendar fields.
-/

namespace D1

/-- Values appearing in the Python dict records this adapter handles. -/
inductive Val where
  | str : String → Val
  | bool : Bool → Val
  | int : Int → Val
  | none : Val
deriving DecidableEq, Repr

/-- A Python dict as an association list (keys unique in the dicts the
inspector returns; lookup takes the first binding). -/
abbrev PyDict := List (String × Val)

/-- Dict key lookup, `col["k"]` / `col.get("k")` before defaulting. -/
def recLookup (r : PyDict) (k : String) : Option Val :=
  List.lookup k r

/-- Python `col.get(k, d)`: lookup with a default. -/
def recGetD (r : PyDict) (k : String) (d : Val) : Val :=
  (recLookup r k).getD d

/-- Whether the character list `p` is an initial segment of `s`. -/
def startsWithL : List Char → List Char → Bool
  | _, [] => true
  | [], _ :: _ => false
  | c :: cs, p :: ps => c = p && startsWithL cs ps

/-- Whether `pat` occurs contiguously inside `s`. -/
def containsSub : List Char → List Char → Bool
  | [], pat => startsWithL [] pat
  | c :: cs, pat => startsWithL (c :: cs) pat || containsSub cs pat

/-- Substring test on strings, used to state what an error message does and
does not mention. -/
def strContains (s pat : String) : Bool :=
  containsSub s.data pat.data

/-- `D1EngineSpec.get_table_names`: the inspector's table-name list (or its
failure) comes in as `r`; names prefixed `_cf` are filtered out and the rest
returned as a set, and any inspector exception is wrapped in a
`RuntimeError` whose message embeds the original exception text. -/
def get_table_names (schema : Option String) (r : Except String (List String)) :
    Except String (Finset String) :=
  match r with
  | Except.ok tables =>
      Except.ok ((tables.filter (fun t => !t.startsWith "_cf")).toFinset)
  | Except.error e =>
      Except.error ("D1EngineSpec: Failed to fetch table names: " ++ e)

/-- `D1EngineSpec.get_view_names`: same filtering and wrapping for views. -/
def get_view_names (schema : Option String) (r : Except String (List String)) :
    Except String (Finset String) :=
  match r with
  | Except.ok views =>
      Except.ok ((views.filter (fun v => !v.startsWith "_cf")).toFinset)
  | Except.error e =>
      Except.error ("D1EngineSpec: Failed to fetch view names: " ++ e)

/-- The dict built for one column by the comprehension in
`D1EngineSpec.get_columns`: `name` is read (KeyError if absent, whose text is
the repr of the key), `type` is read, the rest use `.get` defaults. -/
def colToRSC (col : PyDict) : Except String PyDict :=
  match recLookup col "name" with
  | Option.none => Except.error "'name'"
  | some n =>
      match recLookup col "type" with
      | Option.none => Except.error "'type'"
      | some ty =>
          Except.ok
            [("column_name", n),
             ("type", ty),
             ("nullable", recGetD col "nullable" (Val.bool true)),
             ("default", recGetD col "default" Val.none),
             ("autoincrement", recGetD col "autoincrement" (Val.bool false))]

/-- A Python list comprehension over a fallible body: first failure aborts. -/
def mapExcept (f : α → Except ε β) : List α → Except ε (List β)
  | [] => Except.ok []
  | x :: xs =>
      match f x with
      | Except.error e => Except.error e
      | Except.ok y =>
          match mapExcept f xs with
          | Except.error e => Except.error e
          | Except.ok ys => Except.ok (y :: ys)

/-- `D1EngineSpec.get_columns`: maps `colToRSC` over the inspector's column
dicts; any exception inside the `try` (from the inspector, modelled by the
`Except.error` input, or a KeyError from the comprehension) is wrapped with
the table in the message. -/
def get_columns (table : String) (r : Except String (List PyDict)) :
    Except String (List PyDict) :=
  match r with
  | Except.ok cols =>
      match mapExcept colToRSC cols with
      | Except.ok out => Except.ok out
      | Except.error e =>
          Except.error ("D1EngineSpec: Failed to fetch columns for " ++ table ++ ": " ++ e)
  | Except.error e =>
      Except.error ("D1EngineSpec: Failed to fetch columns for " ++ table ++ ": " ++ e)

/-- `D1EngineSpec.get_pk_constraint`: pure delegation; failures wrapped with
the table name. -/
def get_pk_constraint (table_name : String) (schema : Option String)
    (r : Except String α) : Except String α :=
  match r with
  | Except.ok pk => Except.ok pk
  | Except.error e =>
      Except.error ("D1EngineSpec: Failed to fetch PK for " ++ table_name ++ ": " ++ e)

/-- `D1EngineSpec.get_foreign_keys`: pure delegation; failures wrapped with
the table name. -/
def get_foreign_keys (table_name : String) (schema : Option String)
    (r : Except String α) : Except String α :=
  match r with
  | Except.ok fks => Except.ok fks
  | Except.error e =>
      Except.error ("D1EngineSpec: Failed to fetch FKs for " ++ table_name ++ ": " ++ e)

/-- Python `datetime.datetime` restricted to its calendar fields. -/
structure PyDatetime where
  year : Nat
  month : Nat
  day : Nat
  hour : Nat
  minute : Nat
  second : Nat
  microsecond : Nat
deriving DecidableEq, Repr

/-- The `timespec` argument of `datetime.isoformat` (only the two values
relevant here). -/
inductive Timespec where
  | seconds
  | microseconds
deriving DecidableEq, Repr

/-- Decimal rendering of `n` left-padded with zeros to width `w`. -/
def padNum (w n : Nat) : String :=
  let s := toString n
  String.mk (List.replicate (w - s.length) '0') ++ s

/-- Python `d.isoformat(sep, timespec)`: with `timespec="seconds"` the
sub-second component is simply not rendered (truncation, never rounding). -/
def isoformat (d : PyDatetime) (sep : String) (ts : Timespec) : String :=
  padNum 4 d.year ++ "-" ++ padNum 2 d.month ++ "-" ++ padNum 2 d.day ++ sep ++
    padNum 2 d.hour ++ ":" ++ padNum 2 d.minute ++ ":" ++ padNum 2 d.second ++
    (match ts with
     | Timespec.seconds => ""
     | Timespec.microseconds => "." ++ padNum 6 d.microsecond)

/-- Classification of a SQLAlchemy column type as used by `convert_dttm`. -/
inductive SqlaTypeClass where
  | stringLike
  | dateTimeLike
  | other
deriving DecidableEq, Repr

/-- Modelled from the spec: the host's `BaseEngineSpec.get_sqla_column_type`
(not part of this repository) "resolves targetType to an internal column-type
classification"; string type names resolve to string-like SQLAlchemy types,
`DATETIME`/`TIMESTAMP` to datetime-like ones, everything else (e.g.
`INTEGER`) to some other classification. -/
def get_sqla_column_type (target_type : String) : SqlaTypeClass :=
  if target_type = "TEXT" ∨ target_type = "VARCHAR" ∨ target_type = "CHAR" ∨
      target_type = "STRING" then SqlaTypeClass.stringLike
  else if target_type = "DATETIME" ∨ target_type = "TIMESTAMP" then
    SqlaTypeClass.dateTimeLike
  else SqlaTypeClass.other

/-- `D1EngineSpec.convert_dttm`: `None` timestamp gives `None`; a string-like
or datetime-like target type gives the single-quoted
`isoformat(sep=" ", timespec="seconds")` literal; anything else gives
`None`. -/
def convert_dttm (target_type : String) (dttm : Option PyDatetime) :
    Option String :=
  match dttm with
  | Option.none => Option.none
  | some d =>
      match get_sqla_column_type target_type with
      | SqlaTypeClass.stringLike =>
          some ("'" ++ isoformat d " " Timespec.seconds ++ "'")
      | SqlaTypeClass.dateTimeLike =>
          some ("'" ++ isoformat d " " Timespec.seconds ++ "'")
      | SqlaTypeClass.other => Option.none

/-- The literal `functions` list of `D1EngineSpec.get_function_names`, in
source order. -/
def d1Functions : List String :=
  ["abs", "acos", "asin", "atan", "avg", "ceil", "coalesce", "cos", "count",
   "date", "datetime", "exp", "floor", "hex", "ifnull", "iif", "instr",
   "json", "json_extract", "json_object", "json_array", "json_array_length",
   "json_valid", "length", "like", "log", "lower", "ltrim", "max", "min",
   "mod", "nullif", "pi", "pow", "power", "printf", "quote", "random",
   "replace", "round", "rtrim", "sign", "sin", "sqrt", "strftime", "substr",
   "sum", "tan", "time", "total_changes", "trim", "typeof", "unixepoch",
   "upper", "zeroblob"]

/-- Code-point lexicographic strict order on character lists: Python's `<`
on strings. -/
def lexLt : List Char → List Char → Bool
  | [], [] => false
  | [], _ :: _ => true
  | _ :: _, [] => false
  | c :: cs, d :: ds =>
      if c < d then true else if d < c then false else lexLt cs ds

/-- Python's case-sensitive lexicographic `<` on strings. -/
def strLt (a b : String) : Bool :=
  lexLt a.data b.data

/-- Insert into an ascending list, keeping it ascending (stable: `x` goes
before the first element not below it). -/
def insertSorted (x : String) : List String → List String
  | [] => [x]
  | y :: ys => if strLt y x then y :: insertSorted x ys else x :: y :: ys

/-- Python `sorted` on strings: the ascending rearrangement under
case-sensitive code-point order (the list elements are distinct, so
stability is immaterial and insertion sort gives the same result). -/
def sortStrings (l : List String) : List String :=
  l.foldr insertSorted []

/-- `D1EngineSpec.get_function_names`: `sorted(functions)`. -/
def get_function_names : List String :=
  sortStrings d1Functions

/-- The time grains of `D1EngineSpec._time_grain_expressions` (keys of the
dict; `Option.none` is the `None` key). -/
inductive TimeGrain where
  | second
  | minute
  | hour
  | day
  | week
  | month
  | quarter
  | year
deriving DecidableEq, Repr

/-- `D1EngineSpec._time_grain_expressions` as a function from grain to SQL
template (braces written with character escapes). -/
def time_grain_expression : Option TimeGrain → String
  | Option.none => "\x7bcol\x7d"
  | some TimeGrain.second => "DATETIME(STRFTIME('%Y-%m-%dT%H:%M:%S', \x7bcol\x7d))"
  | some TimeGrain.minute => "DATETIME(STRFTIME('%Y-%m-%dT%H:%M:00', \x7bcol\x7d))"
  | some TimeGrain.hour => "DATETIME(STRFTIME('%Y-%m-%dT%H:00:00', \x7bcol\x7d))"
  | some TimeGrain.day => "DATETIME(\x7bcol\x7d, 'start of day')"
  | some TimeGrain.week =>
      "DATETIME(\x7bcol\x7d, 'start of day', -strftime('%w', \x7bcol\x7d) || ' days')"
  | some TimeGrain.month => "DATETIME(\x7bcol\x7d, 'start of month')"
  | some TimeGrain.quarter =>
      "DATETIME(\x7bcol\x7d, 'start of month', printf('-%d month', (strftime('%m', \x7bcol\x7d) - 1) % 3))"
  | some TimeGrain.year => "DATETIME(\x7bcol\x7d, 'start of year')"

/-- Day number of a proleptic Gregorian date, with day 0 = 1970-01-01
(standard days-from-civil computation; all divisions here act on nonnegative
operands). -/
def civilToDays (y m d : Int) : Int :=
  let y2 := if m ≤ 2 then y - 1 else y
  let era := (if y2 ≥ 0 then y2 else y2 - 399) / 400
  let yoe := y2 - era * 400
  let mp := (m + 9) % 12
  let doy := (153 * mp + 2) / 5 + d - 1
  let doe := yoe * 365 + yoe / 4 - yoe / 100 + doy
  era * 146097 + doe - 719468

/-- SQLite `strftime('%w', ·)` on the date with day number `n`:
day of week with 0 = Sunday (1970-01-01 was a Thursday, value 4). -/
def dayOfWeekW (n : Int) : Int :=
  (n + 4) % 7

/-- Day-level semantics of the WEEK grain template
`DATETIME(col, 'start of day', -strftime('%w', col) || ' days')`: after
truncating to the start of the day, subtract `%w` days. -/
def weekTruncate (n : Int) : Int :=
  n - dayOfWeekW n

/-- Written to the spec's words, for comparison: the first day (Monday) of
the ISO week containing day `n` (1970-01-05, day 4, was a Monday). -/
def isoWeekStart (n : Int) : Int :=
  n - ((n + 3) % 7)

/-- The characters of the literal part of `COLUMN_DOES_NOT_EXIST_REGEX`,
`"no such column: "`. -/
def colPatChars : List Char :=
  "no such column: ".data

/-- `re.search` of the pattern `no such column: (?P<column_name>.+)` over the
characters of the message: at the first position where the literal part
matches and is followed by at least one character before any newline, the
`column_name` group captures greedily up to the end of the line. -/
def searchCol : List Char → Option (List Char)
  | [] => Option.none
  | c :: cs =>
      if startsWithL (c :: cs) colPatChars then
        match ((c :: cs).drop colPatChars.length).takeWhile (· ≠ '\n') with
        | [] => searchCol cs
        | r => some r
      else searchCol cs

/-- The `column_name` capture of searching `COLUMN_DOES_NOT_EXIST_REGEX` in
`s`, if the pattern matches. -/
def columnDoesNotExistSearch (s : String) : Option String :=
  (searchCol s.data).map String.mk

/-- The Superset error kind this adapter's one custom error maps to. -/
inductive SupersetErrorType where
  | COLUMN_DOES_NOT_EXIST_ERROR
deriving DecidableEq, Repr

/-- `D1EngineSpec.custom_errors`: the pattern (as its search function), the
user-facing message template, and the error kind of its single entry. -/
def custom_errors :
    List ((String → Option String) × String × SupersetErrorType) :=
  [(columnDoesNotExistSearch,
    "We can’t seem to resolve the column “%(column_name)s”",
    SupersetErrorType.COLUMN_DOES_NOT_EXIST_ERROR)]

/-- `D1EngineSpec.epoch_to_dttm`. -/
def epoch_to_dttm : String :=
  "datetime(\x7bcol\x7d, 'unixepoch')"

/-- `D1EngineSpec.get_virtual_table_context`: returns `virtual_table`
unchanged. -/
def get_virtual_table_context (virtual_table : α) (database : β)
    (schema : Option String) : α :=
  virtual_table

/-- Column dicts as the test inspector returns them, used as concrete
witness inputs. -/
def colsDemo : List PyDict :=
  [[("name", Val.str "id"), ("type", Val.str "INTEGER"),
    ("nullable", Val.bool false), ("default", Val.none),
    ("autoincrement", Val.bool true)],
   [("name", Val.str "active"), ("type", Val.str "BOOLEAN"),
    ("nullable", Val.bool true), ("default", Val.int 1),
    ("autoincrement", Val.bool false)]]

/-- What `get_columns` returns on `colsDemo`. -/
def outDemo : List PyDict :=
  [[("column_name", Val.str "id"), ("type", Val.str "INTEGER"),
    ("nullable", Val.bool false), ("default", Val.none),
    ("autoincrement", Val.bool true)],
   [("column_name", Val.str "active"), ("type", Val.str "BOOLEAN"),
    ("nullable", Val.bool true), ("default", Val.int 1),
    ("autoincrement", Val.bool false)]]

/-- A datetime with a nonzero microsecond component, used as a concrete
witness input. -/
def dDemo : PyDatetime :=
  ⟨2025, 1, 2, 3, 4, 5, 987654⟩

/-- An `Except.ok` result of `mapExcept f` has one element per input, in
order: at every index the output is `f` of the input. -/
theorem mapExcept_ok_pointwise {α β ε : Type} (f : α → Except ε β)
    (dl : α) (dr : β) :
    ∀ (xs : List α) (ys : List β), mapExcept f xs = Except.ok ys →
      ys.length = xs.length ∧
      ∀ i, i < xs.length → f (xs.getD i dl) = Except.ok (ys.getD i dr) := by
  intro xs
  induction xs with
  | nil =>
      intro ys h
      simp [mapExcept] at h
      subst h
      exact ⟨rfl, fun i hi => absurd hi (by simp)⟩
  | cons x xs ih =>
      intro ys h
      unfold mapExcept at h
      cases hfx : f x with
      | error e => rw [hfx] at h; simp at h
      | ok y =>
          rw [hfx] at h
          cases hrec : mapExcept f xs with
          | error e => rw [hrec] at h; simp at h
          | ok ys2 =>
              rw [hrec] at h
              simp at h
              subst h
              obtain ⟨hlen, hpt⟩ := ih ys2 hrec
              refine ⟨by simp [hlen], fun i hi => ?_⟩
              cases i with
              | zero => simpa using hfx
              | succ j => simpa using hpt j (by simpa using hi)

/-- A successful `colToRSC` output is exactly the five-key record built from
the input: `column_name` carries the input's `name`, `type` passes through,
`nullable`/`default`/`autoincrement` use their `.get` defaults, and no other
input field is kept. -/
theorem colToRSC_ok_shape :
    ∀ (col o : PyDict), colToRSC col = Except.ok o →
      ∃ n ty, recLookup col "name" = some n ∧ recLookup col "type" = some ty ∧
        o = [("column_name", n), ("type", ty),
             ("nullable", recGetD col "nullable" (Val.bool true)),
             ("default", recGetD col "default" Val.none),
             ("autoincrement", recGetD col "autoincrement" (Val.bool false))] := by
  intro col o h
  unfold colToRSC at h
  cases hn : recLookup col "name" with
  | none => rw [hn] at h; simp at h
  | some n =>
      rw [hn] at h
      cases ht : recLookup col "type" with
      | none => rw [ht] at h; simp at h
      | some ty =>
          rw [ht] at h
          simp at h
          exact ⟨n, ty, rfl, rfl, h.symm⟩

/-- C1: on every inspector-returned name list, `get_table_names` (and
`get_view_names` under the same contract) returns a set that excludes every
name starting with `_cf` and includes every other name; membership is
exactly "listed by the inspector and not `_cf`-prefixed", and the `Finset`
return type carries the no-duplicates set semantics. -/
theorem get_table_names_filter_spec :
    ∀ (schema : Option String) (tables views : List String) (t : String),
      (∃ S, get_table_names schema (Except.ok tables) = Except.ok S ∧
         (t ∈ S ↔ t ∈ tables ∧ t.startsWith "_cf" = false)) ∧
      (∃ V, get_view_names schema (Except.ok views) = Except.ok V ∧
         (t ∈ V ↔ t ∈ views ∧ t.startsWith "_cf" = false)) := by
  intro schema tables views t
  refine ⟨⟨_, rfl, ?_⟩, ⟨_, rfl, ?_⟩⟩ <;>
    simp [List.mem_toFinset, List.mem_filter]

/-- C2: when `get_columns` succeeds, it returns exactly one record per input
record in the same order, each holding `column_name` equal to the input's
`name`, and no `name` key. -/
theorem get_columns_rename_spec :
    ∀ (table : String) (cols out : List PyDict),
      get_columns table (Except.ok cols) = Except.ok out →
      out.length = cols.length ∧
      ∀ i, i < cols.length →
        (∃ v, recLookup (cols.getD i []) "name" = some v ∧
              recLookup (out.getD i []) "column_name" = some v) ∧
        recLookup (out.getD i []) "name" = Option.none := by
  intro table cols out h
  simp only [get_columns] at h
  cases hm : mapExcept colToRSC cols with
  | error e => rw [hm] at h; simp at h
  | ok out2 =>
      rw [hm] at h
      simp at h
      subst h
      obtain ⟨hlen, hpt⟩ := mapExcept_ok_pointwise colToRSC [] [] cols out2 hm
      refine ⟨hlen, fun i hi => ?_⟩
      obtain ⟨n, ty, hn, hty, ho⟩ := colToRSC_ok_shape _ _ (hpt i hi)
      rw [ho]
      exact ⟨⟨n, hn, rfl⟩, rfl⟩

/-- Witness for C2 at the test suite's `test_table` columns. -/
theorem get_columns_rename_witness :
    get_columns "test_table" (Except.ok colsDemo) = Except.ok outDemo ∧
    (outDemo.length = colsDemo.length ∧
     ∀ i, i < colsDemo.length →
       (∃ v, recLookup (colsDemo.getD i []) "name" = some v ∧
             recLookup (outDemo.getD i []) "column_name" = some v) ∧
       recLookup (outDemo.getD i []) "name" = Option.none) :=
  ⟨rfl, get_columns_rename_spec "test_table" colsDemo outDemo rfl⟩

/-- Counterexample to C3 as stated: an extra input field (`primary_key`,
present besides `name`) does not appear in the output record at all. -/
theorem get_columns_drops_extra_counterexample :
    recLookup [("name", Val.str "c"), ("type", Val.str "INTEGER"),
               ("primary_key", Val.bool true)] "primary_key"
      = some (Val.bool true) ∧
    get_columns "t"
        (Except.ok [[("name", Val.str "c"), ("type", Val.str "INTEGER"),
                     ("primary_key", Val.bool true)]])
      = Except.ok [[("column_name", Val.str "c"), ("type", Val.str "INTEGER"),
                    ("nullable", Val.bool true), ("default", Val.none),
                    ("autoincrement", Val.bool false)]] ∧
    recLookup [("column_name", Val.str "c"), ("type", Val.str "INTEGER"),
               ("nullable", Val.bool true), ("default", Val.none),
               ("autoincrement", Val.bool false)] "primary_key"
      = Option.none :=
  ⟨rfl, rfl, rfl⟩

/-- C3 (amended): each successful output record is exactly the five-key
record `column_name`/`type`/`nullable`/`default`/`autoincrement`, where
`type` passes through, `nullable` defaults to true, `default` defaults to
none and `autoincrement` defaults to false; input fields outside these are
dropped, not passed through. -/
theorem get_columns_fixed_fields_spec :
    ∀ (table : String) (cols out : List PyDict),
      get_columns table (Except.ok cols) = Except.ok out →
      ∀ i, i < cols.length →
        ∃ n ty, recLookup (cols.getD i []) "name" = some n ∧
          recLookup (cols.getD i []) "type" = some ty ∧
          out.getD i [] = [("column_name", n), ("type", ty),
            ("nullable", recGetD (cols.getD i []) "nullable" (Val.bool true)),
            ("default", recGetD (cols.getD i []) "default" Val.none),
            ("autoincrement",
              recGetD (cols.getD i []) "autoincrement" (Val.bool false))] := by
  intro table cols out h
  simp only [get_columns] at h
  cases hm : mapExcept colToRSC cols with
  | error e => rw [hm] at h; simp at h
  | ok out2 =>
      rw [hm] at h
      simp at h
      subst h
      obtain ⟨hlen, hpt⟩ := mapExcept_ok_pointwise colToRSC [] [] cols out2 hm
      intro i hi
      exact colToRSC_ok_shape _ _ (hpt i hi)

/-- Witness for the amended C3 at the test suite's `test_table` columns. -/
theorem get_columns_fixed_fields_witness :
    get_columns "test_table" (Except.ok colsDemo) = Except.ok outDemo ∧
    (∀ i, i < colsDemo.length →
       ∃ n ty, recLookup (colsDemo.getD i []) "name" = some n ∧
         recLookup (colsDemo.getD i []) "type" = some ty ∧
         outDemo.getD i [] = [("column_name", n), ("type", ty),
           ("nullable", recGetD (colsDemo.getD i []) "nullable" (Val.bool true)),
           ("default", recGetD (colsDemo.getD i []) "default" Val.none),
           ("autoincrement",
             recGetD (colsDemo.getD i []) "autoincrement" (Val.bool false))]) :=
  ⟨rfl, get_columns_fixed_fields_spec "test_table" colsDemo outDemo rfl⟩

/-- C4: `convert_dttm` returns none on a missing timestamp for every target
type; returns none for `INTEGER` (classified neither string-like nor
datetime-like) on every timestamp; and for `DATETIME`, `TEXT` and
`TIMESTAMP` on `datetime(2025, 1, 2, 3, 4, 5)` returns the single-quoted
literal `'2025-01-02 03:04:05'`. -/
theorem convert_dttm_spec :
    (∀ t : String, convert_dttm t Option.none = Option.none) ∧
    (∀ d : PyDatetime, convert_dttm "INTEGER" (some d) = Option.none) ∧
    get_sqla_column_type "INTEGER" = SqlaTypeClass.other ∧
    convert_dttm "DATETIME" (some ⟨2025, 1, 2, 3, 4, 5, 0⟩)
      = some "'2025-01-02 03:04:05'" ∧
    convert_dttm "TEXT" (some ⟨2025, 1, 2, 3, 4, 5, 0⟩)
      = some "'2025-01-02 03:04:05'" ∧
    convert_dttm "TIMESTAMP" (some ⟨2025, 1, 2, 3, 4, 5, 0⟩)
      = some "'2025-01-02 03:04:05'" :=
  ⟨fun t => rfl, fun d => rfl, rfl, by decide, by decide, by decide⟩

/-- C5: `get_function_names` is sorted strictly ascending in case-sensitive
lexicographic order (hence duplicate-free); `abs` is present; the excluded
`load_extension` and a fabricated name are absent. -/
theorem get_function_names_spec :
    List.Sorted (fun a b : String => strLt a b = true) get_function_names ∧
    get_function_names.Nodup ∧
    "abs" ∈ get_function_names ∧
    "load_extension" ∉ get_function_names ∧
    "not_a_valid_function" ∉ get_function_names := by
  decide

/-- Counterexample to C6 as stated: on 2025-01-05 (a Sunday) the WEEK
template leaves the day in place — a Sunday, day-of-week 0 — whereas the
first day (Monday) of that day's ISO week is 2024-12-30, so the template
does not truncate to the start of the ISO week. -/
theorem week_grain_not_iso_counterexample :
    weekTruncate (civilToDays 2025 1 5) = civilToDays 2025 1 5 ∧
    dayOfWeekW (civilToDays 2025 1 5) = 0 ∧
    isoWeekStart (civilToDays 2025 1 5) = civilToDays 2024 12 30 ∧
    dayOfWeekW (civilToDays 2024 12 30) = 1 ∧
    weekTruncate (civilToDays 2025 1 5) ≠ isoWeekStart (civilToDays 2025 1 5) := by
  decide

/-- C6 (amended): the WEEK entry subtracts `strftime('%w')` days after
truncating to the start of the day, which aligns every timestamp to the
most recent Sunday (day-of-week 0) at day granularity — the start of a
Sunday-based week, not of the ISO (Monday-based) week. -/
theorem week_grain_sunday_start :
    time_grain_expression (some TimeGrain.week) =
      "DATETIME(\x7bcol\x7d, 'start of day', -strftime('%w', \x7bcol\x7d) || ' days')" ∧
    ∀ n : Int, dayOfWeekW (weekTruncate n) = 0 ∧
      weekTruncate n ≤ n ∧ n - weekTruncate n < 7 := by
  refine ⟨rfl, fun n => ?_⟩
  unfold weekTruncate dayOfWeekW
  omega

/-- Counterexample to C7 as stated: with a target schema `main`, a failing
PK fetch (and a failing table-name fetch) is wrapped into a message that
nowhere names that schema, so the re-raised failure's context does not name
the target schema. -/
theorem error_context_no_schema_counterexample :
    get_pk_constraint "t1" (some "main") (Except.error "boom" : Except String Unit)
      = Except.error "D1EngineSpec: Failed to fetch PK for t1: boom" ∧
    strContains "D1EngineSpec: Failed to fetch PK for t1: boom" "main" = false ∧
    get_table_names (some "main") (Except.error "boom")
      = Except.error "D1EngineSpec: Failed to fetch table names: boom" ∧
    strContains "D1EngineSpec: Failed to fetch table names: boom" "main" = false ∧
    strContains "D1EngineSpec: Failed to fetch PK for t1: boom" "boom" = true :=
  ⟨rfl, by decide, rfl, by decide, by decide⟩

/-- C7 (amended): no inspector failure is swallowed — each of the five
reflection helpers turns it into an adapter-level `RuntimeError` whose
message names the operation and embeds the original exception's text, and
the column/PK/FK messages name the target table; the schema argument is
never part of the message. -/
theorem error_wrapping_spec (α β : Type) :
    ∀ (e table : String) (schema : Option String),
      get_table_names schema (Except.error e)
        = Except.error ("D1EngineSpec: Failed to fetch table names: " ++ e) ∧
      get_view_names schema (Except.error e)
        = Except.error ("D1EngineSpec: Failed to fetch view names: " ++ e) ∧
      get_columns table (Except.error e)
        = Except.error ("D1EngineSpec: Failed to fetch columns for " ++ table ++ ": " ++ e) ∧
      get_pk_constraint table schema (Except.error e : Except String α)
        = Except.error ("D1EngineSpec: Failed to fetch PK for " ++ table ++ ": " ++ e) ∧
      get_foreign_keys table schema (Except.error e : Except String β)
        = Except.error ("D1EngineSpec: Failed to fetch FKs for " ++ table ++ ": " ++ e) :=
  fun e table schema => ⟨rfl, rfl, rfl, rfl, rfl⟩

/-- C8: the column-does-not-exist pattern searched in
`"Error: no such column: non_existent_col"` matches with `column_name`
capturing `non_existent_col`, and `custom_errors` maps that pattern to the
COLUMN_DOES_NOT_EXIST error kind. -/
theorem column_regex_spec :
    columnDoesNotExistSearch "Error: no such column: non_existent_col"
      = some "non_existent_col" ∧
    ∃ msg, (columnDoesNotExistSearch, msg,
            SupersetErrorType.COLUMN_DOES_NOT_EXIST_ERROR) ∈ custom_errors :=
  ⟨rfl, ⟨_, List.mem_singleton.mpr rfl⟩⟩

/-- C9: `get_virtual_table_context` returns its `virtual_table` argument
unchanged for every input and every database/schema argument. -/
theorem get_virtual_table_context_identity :
    ∀ {α β : Type} (x : α) (db : β) (schema : Option String),
      get_virtual_table_context x db schema = x :=
  fun _ _ _ => rfl

/-- C10: for a timestamp with nonzero microseconds and a string-like or
datetime-like target, `convert_dttm` returns the second-precision literal:
the result equals the one for the same timestamp with microseconds zeroed
(truncation, not rounding), and rendering with microsecond precision would
have produced a different string (the fraction is dropped, not included). -/
theorem convert_dttm_truncates_spec :
    ∀ (t : String) (d : PyDatetime),
      d.microsecond ≠ 0 →
      (get_sqla_column_type t = SqlaTypeClass.stringLike ∨
       get_sqla_column_type t = SqlaTypeClass.dateTimeLike) →
      convert_dttm t (some d)
        = some ("'" ++ isoformat d " " Timespec.seconds ++ "'") ∧
      convert_dttm t (some d)
        = convert_dttm t (some { d with microsecond := 0 }) ∧
      isoformat d " " Timespec.microseconds ≠ isoformat d " " Timespec.seconds := by
  intro t d hmu hcls
  have hne : isoformat d " " Timespec.microseconds ≠ isoformat d " " Timespec.seconds := by
    intro h
    have h2 := congrArg String.length h
    have hdot : ("." : String).length = 1 := rfl
    have hnil : ("" : String).length = 0 := rfl
    simp only [isoformat, String.length_append] at h2
    omega
  rcases hcls with h | h <;>
    exact ⟨by simp [convert_dttm, h], by simp [convert_dttm, h]; rfl, hne⟩

/-- Witness for C10 at `datetime(2025, 1, 2, 3, 4, 5, 987654)` and target
type TEXT. -/
theorem convert_dttm_truncates_witness :
    (dDemo.microsecond ≠ 0 ∧
     (get_sqla_column_type "TEXT" = SqlaTypeClass.stringLike ∨
      get_sqla_column_type "TEXT" = SqlaTypeClass.dateTimeLike)) ∧
    (convert_dttm "TEXT" (some dDemo)
       = some ("'" ++ isoformat dDemo " " Timespec.seconds ++ "'") ∧
     convert_dttm "TEXT" (some dDemo)
       = convert_dttm "TEXT" (some { dDemo with microsecond := 0 }) ∧
     isoformat dDemo " " Timespec.microseconds ≠ isoformat dDemo " " Timespec.seconds) :=
  ⟨⟨by decide, Or.inl rfl⟩,
   convert_dttm_truncates_spec "TEXT" dDemo (by decide) (Or.inl rfl)⟩

end D1
